import Mathlib

/-!
Shallow embedding of the oEmbed plugin for the Lexical editor:
the `OEmbedNode` decorator node (JSON and DOM serialization, text
content, render dispatch) and the `OEmbedPlugin` command registration.

Sources embedded:
- src/packages/lexical-playground/src/nodes/OEmbedNode.tsx
- src/unnamed/part_000 (the OEmbedPlugin component)

Parts of the host editor framework (the decorator-block base class,
the block-insertion routine, command registration) are not under src/;
those are modelled from the spec and marked as such.
-/

/-- Modelled from the spec: the alignment enum of the host's
`ElementFormatType` ("alignment-enum-or-null"); the node's `format`
attribute is an `Option ElementFormat`, `none` standing for null/absent. -/
inductive ElementFormat
  | left
  | start
  | center
  | right
  | justify
  deriving DecidableEq, Repr

/-- The `OEmbedNode` class: one url attribute (`__url`), plus the
base decorator-block state: `format` (alignment or null, modelled from
the spec) and the host-assigned identity `key`. -/
structure OEmbedNode where
  url : String
  format : Option ElementFormat
  key : Nat
  deriving DecidableEq, Repr

/-- `OEmbedNode.getType()`: the node-type tag string. -/
def OEmbedNode.getType : String := "oembed"

/-- `getUrl()`: returns `this.__url`. -/
def OEmbedNode.getUrl (n : OEmbedNode) : String := n.url

/-- Modelled from the spec: the base class's `setFormat` capability
("mutated only through the host's set-format capability"); replaces
the format attribute. -/
def OEmbedNode.setFormat (n : OEmbedNode) (f : Option ElementFormat) : OEmbedNode :=
  { n with format := f }

/-- `$createOEmbedNode(url)`: `new OEmbedNode(url)` — given url, default
(null) format, fresh host-assigned identity (passed in as `freshKey`). -/
def createOEmbedNode (url : String) (freshKey : Nat) : OEmbedNode :=
  { url := url, format := none, key := freshKey }

/-- `static clone(node)`: same url, same format, same key. -/
def OEmbedNode.clone (n : OEmbedNode) : OEmbedNode :=
  { url := n.url, format := n.format, key := n.key }

/-- `SerializedOEmbedNode`: the persisted JSON form
`{ type: "oembed", version: 1, url, format }` — `url`, `type`, `version`
spread over the serialized decorator-block base, whose own field is
`format`. The `version` field is a number (`Nat`) so that payloads with
other versions can be expressed. -/
structure SerializedOEmbedNode where
  type_ : String
  version : Nat
  url : String
  format : Option ElementFormat
  deriving DecidableEq, Repr

/-- `exportJSON()`: `{...super.exportJSON(), type: 'oembed',
url: this.getUrl(), version: 1}`; the base (modelled from the spec)
contributes the `format` field, its `type`/`version` being overwritten
by the spread. -/
def OEmbedNode.exportJSON (n : OEmbedNode) : SerializedOEmbedNode :=
  { type_ := "oembed", version := 1, url := n.getUrl, format := n.format }

/-- `static importJSON(serializedNode)`:
`$createOEmbedNode(serializedNode.url)` then
`node.setFormat(serializedNode.format)`. No runtime inspection of any
other field (in particular not of `version`). The fresh identity comes
from the host (`freshKey`). -/
def OEmbedNode.importJSON (s : SerializedOEmbedNode) (freshKey : Nat) : OEmbedNode :=
  (createOEmbedNode s.url freshKey).setFormat s.format

/-- `getTextContent()`: the template string
`https://twitter.com/i/web/status/${this.__url}`. -/
def OEmbedNode.getTextContent (n : OEmbedNode) : String :=
  "https://twitter.com/i/web/status/" ++ n.url

/-- A DOM element as this code observes it: a tag name and its
attribute list (`getAttribute` returns null — here `none` — for an
absent attribute, `hasAttribute` tests presence). -/
structure DOMElement where
  tag : String
  attributes : List (String × String)
  deriving DecidableEq, Repr

/-- `element.getAttribute(name)`: the value of the first attribute with
that name, or null (`none`). -/
def DOMElement.getAttribute (e : DOMElement) (name : String) : Option String :=
  (e.attributes.find? (fun p => p.1 == name)).map Prod.snd

/-- `element.hasAttribute(name)`. -/
def DOMElement.hasAttribute (e : DOMElement) (name : String) : Bool :=
  (e.attributes.find? (fun p => p.1 == name)).isSome

/-- `convertOEmbedElement(domNode)`: reads
`data-lexical-oembed-url`; if the value is truthy (non-null and
non-empty) returns `{node: $createOEmbedNode(url)}`, else null. -/
def convertOEmbedElement (domNode : DOMElement) (freshKey : Nat) : Option OEmbedNode :=
  match domNode.getAttribute "data-lexical-oembed-url" with
  | some url => if url.isEmpty then none else some (createOEmbedNode url freshKey)
  | none => none

/-- An entry of the `DOMConversionMap`: the conversion function plus
its declared priority. -/
structure DOMConversion where
  conversion : DOMElement → Nat → Option OEmbedNode
  priority : Nat

/-- `static importDOM()`, entry for tag `div`: null when the element
lacks the `data-lexical-oembed-url` attribute, otherwise
`{conversion: convertOEmbedElement, priority: 2}`. -/
def OEmbedNode.importDOMDiv (domNode : DOMElement) : Option DOMConversion :=
  if domNode.hasAttribute "data-lexical-oembed-url" then
    some { conversion := convertOEmbedElement, priority := 2 }
  else
    none

/-- The markup-import pipeline for this node type: the host importer
consults `importDOM()`'s `div` entry for a div element and, when a
conversion is offered, applies it. Non-div elements and unrecognized
divs yield no node (`none`). -/
def importFromMarkup (e : DOMElement) (freshKey : Nat) : Option OEmbedNode :=
  if e.tag == "div" then
    match OEmbedNode.importDOMDiv e with
    | some c => c.conversion e freshKey
    | none => none
  else
    none

/-- `exportDOM()`: creates a `div` element and sets
`data-lexical-oembed-url` to `this.__url`. -/
def OEmbedNode.exportDOM (n : OEmbedNode) : DOMElement :=
  { tag := "div", attributes := [("data-lexical-oembed-url", n.url)] }

/-- The fetched oEmbed payload as the component actually receives it:
an arbitrary JSON object cast to `OEmbedData`, so the `type`
discriminator is an arbitrary string and every shape-specific field may
be absent. -/
structure OEmbedPayload where
  type_ : String
  url : Option String
  html : Option String
  width : Option Nat
  height : Option Nat
  title : Option String
  deriving DecidableEq, Repr

/-- What `renderEmbed` can produce: the loading placeholder
(`loadingComponent`, default the literal "Loading...") or one of the
four shape-specific renderings (`renderPhoto`, `renderVideo`,
`renderLink`, `renderRich`). -/
inductive RenderResult
  | loading
  | photo (src : Option String) (width height : Option Nat)
  | video (html : Option String)
  | link (href : String) (label : Option String)
  | rich (html : Option String)
  deriving DecidableEq, Repr

/-- `OEmbedComponent`'s `renderEmbed` callback:
`if (!url || isLoading || !oembedData) return loadingComponent;` then a
switch on `oembedData.type` over photo / video / link / rich, with the
default branch returning the loading placeholder. The `url` prop is
optional and the empty string is falsy. -/
def renderEmbed (url : Option String) (isLoading : Bool)
    (oembedData : Option OEmbedPayload) : RenderResult :=
  if (url.getD "").isEmpty || isLoading || oembedData.isNone then
    .loading
  else
    match url, oembedData with
    | some u, some d =>
      if d.type_ == "photo" then .photo d.url d.width d.height
      else if d.type_ == "video" then .video d.html
      else if d.type_ == "link" then .link u d.title
      else if d.type_ == "rich" then .rich d.html
      else .loading
    | _, _ => .loading

/-- A block of the host document: either an `OEmbedNode` or some other
block, opaque to this plugin. -/
inductive Block
  | oembed (n : OEmbedNode)
  | other (id : Nat)
  deriving DecidableEq, Repr

/-- The host editor state this plugin touches: the document's top-level
blocks, the current focus position, and the host's fresh-key counter. -/
structure EditorState where
  blocks : List Block
  focus : Nat
  nextKey : Nat
  deriving DecidableEq, Repr

/-- Modelled from the spec: `$insertBlockNode` from `@lexical/utils`
(not under src/) — the host's generic block-insertion routine, which
"places it at the current focus". -/
def insertBlockNode (st : EditorState) (b : Block) : EditorState :=
  { st with blocks := st.blocks.take st.focus ++ [b] ++ st.blocks.drop st.focus }

/-- The `INSERT_OEMBED_COMMAND` callback registered by `OEmbedPlugin`:
`const oembedNode = $createOEmbedNode(payload); $insertBlockNode(oembedNode);
return true;`. The fresh identity is drawn from the host's counter. -/
def oembedCommandHandler (payload : String) (st : EditorState) : EditorState × Bool :=
  let oembedNode := createOEmbedNode payload st.nextKey
  (insertBlockNode { st with nextKey := st.nextKey + 1 } (.oembed oembedNode), true)

/-- The part of the host editor `OEmbedPlugin` inspects: which node
types are registered (`editor.hasNodes`). -/
structure EditorConfig where
  registeredNodeTypes : List String
  deriving DecidableEq, Repr

/-- `editor.hasNodes(nodes)`: every listed node type is registered. -/
def EditorConfig.hasNodes (cfg : EditorConfig) (types : List String) : Bool :=
  types.all (fun t => cfg.registeredNodeTypes.contains t)

/-- The result of a successful registration: the installed handler. -/
inductive Registration
  | registered (handler : String → EditorState → EditorState × Bool)

/-- `OEmbedPlugin`'s effect body: if `!editor.hasNodes([OEmbedNode])`
throw `Error('OEmbedPlugin: OEmbedNode not registered on editor')`
(before any command can be handled); otherwise register the command
handler. -/
def OEmbedPlugin (cfg : EditorConfig) : Except String Registration :=
  if !(cfg.hasNodes [OEmbedNode.getType]) then
    .error "OEmbedPlugin: OEmbedNode not registered on editor"
  else
    .ok (.registered oembedCommandHandler)

/-- Whether `OEmbedPlugin` completed registration without throwing. -/
def registrationSucceeds (cfg : EditorConfig) : Bool :=
  match OEmbedPlugin cfg with
  | .ok _ => true
  | .error _ => false

/-- C1: for every url `u` and format `f`, exporting the node created by
`$createOEmbedNode(u)` with format `f` applied, importing that
serialized JSON via `importJSON`, then exporting again yields JSON
identical to the first export in every field; the key of the reimported
node is the freshly assigned one. -/
theorem C1_export_import_export_roundtrip (u : String) (f : Option ElementFormat)
    (k1 k2 : Nat) :
    (OEmbedNode.importJSON ((createOEmbedNode u k1).setFormat f).exportJSON k2).exportJSON
        = ((createOEmbedNode u k1).setFormat f).exportJSON
      ∧ (OEmbedNode.importJSON ((createOEmbedNode u k1).setFormat f).exportJSON k2).key
        = k2 := by
  exact ⟨rfl, rfl⟩

/-- C2 counterexample: for the node created with url `""`, the markup
round-trip fails — `importFromMarkup` applied to its `exportDOM` output
returns null, refuting the claim that it succeeds for every node. -/
theorem C2_counterexample :
    importFromMarkup ((createOEmbedNode "" 0).exportDOM) 1 = none := by
  rfl

/-- C2 amended: for every `OEmbedNode` whose url is non-empty, applying
`importFromMarkup` to the container element produced by `exportDOM`
succeeds and yields a node with the same url. -/
theorem C2_markup_roundtrip (n : OEmbedNode) (k : Nat) (h : n.url ≠ "") :
    importFromMarkup n.exportDOM k = some (createOEmbedNode n.url k)
      ∧ (createOEmbedNode n.url k).getUrl = n.getUrl := by
  refine ⟨?_, rfl⟩
  have hne : n.url.isEmpty = false := by
    cases hi : n.url.isEmpty
    · rfl
    · exact absurd ((String.isEmpty_iff n.url).mp hi) h
  simp [importFromMarkup, OEmbedNode.exportDOM, OEmbedNode.importDOMDiv,
    DOMElement.hasAttribute, DOMElement.getAttribute, convertOEmbedElement,
    List.find?, hne]

/-- C2 witness: the amended round-trip at a concrete node. -/
theorem C2_markup_roundtrip_witness :
    importFromMarkup (createOEmbedNode "https://example.com/x" 5).exportDOM 9
        = some (createOEmbedNode "https://example.com/x" 9)
      ∧ (createOEmbedNode "https://example.com/x" 9).getUrl
        = (createOEmbedNode "https://example.com/x" 5).getUrl :=
  C2_markup_roundtrip (createOEmbedNode "https://example.com/x" 5) 9 (by decide)

/-- C3: for every payload url, the registered command callback builds
exactly one new `OEmbedNode` (with `getUrl()` equal to the payload and a
fresh key), hands it to the host's block-insertion routine — which
places it at the focus, leaving all other blocks unchanged — and
returns true. -/
theorem C3_insert_command_handler (payload : String) (st : EditorState) :
    oembedCommandHandler payload st
        = ({ blocks := st.blocks.take st.focus
              ++ [Block.oembed (createOEmbedNode payload st.nextKey)]
              ++ st.blocks.drop st.focus,
             focus := st.focus,
             nextKey := st.nextKey + 1 }, true)
      ∧ (createOEmbedNode payload st.nextKey).getUrl = payload := by
  exact ⟨rfl, rfl⟩

/-- C4: registration throws synchronously exactly when the `oembed`
node type is not registered with the host editor; when it is
registered, `OEmbedPlugin` installs the command handler without
throwing. -/
theorem C4_registration_error_iff_unregistered (cfg : EditorConfig) :
    OEmbedPlugin cfg
      = if cfg.hasNodes [OEmbedNode.getType] then
          .ok (.registered oembedCommandHandler)
        else
          .error "OEmbedPlugin: OEmbedNode not registered on editor" := by
  cases h : cfg.hasNodes [OEmbedNode.getType] <;> simp [OEmbedPlugin, h]

/-- C5 counterexample: a serialized payload with version 2 is accepted
by `importJSON` — it constructs the very same node a version-1 payload
would, signalling no error — refuting the claim that only version 1 is
accepted. -/
theorem C5_counterexample :
    OEmbedNode.importJSON
        { type_ := "oembed", version := 2, url := "https://example.com/x",
          format := none } 0
      = OEmbedNode.importJSON
        { type_ := "oembed", version := 1, url := "https://example.com/x",
          format := none } 0 := by
  rfl

/-- C5 amended: `importJSON` never inspects the version field — for
every serialized input and every version value it constructs a node
with the persisted url and then applies the persisted format. -/
theorem C5_import_ignores_version (s : SerializedOEmbedNode) (k v : Nat) :
    OEmbedNode.importJSON { s with version := v } k
      = (createOEmbedNode s.url k).setFormat s.format := by
  rfl

/-- C6 counterexample: two nodes created with different urls have
different `getTextContent` results, refuting the claim that the text is
independent of the node's data. -/
theorem C6_counterexample :
    OEmbedNode.getTextContent (createOEmbedNode "a" 0)
      ≠ OEmbedNode.getTextContent (createOEmbedNode "b" 0) := by
  decide

/-- C6 amended: `getTextContent` returns the hardcoded Twitter-status
URL template with the node's url appended — the template prefix is
fixed regardless of format, key or embed type, but the result does
depend on the url. -/
theorem C6_text_content_template (u : String) (f : Option ElementFormat) (k : Nat) :
    ((createOEmbedNode u k).setFormat f).getTextContent
      = "https://twitter.com/i/web/status/" ++ u := by
  rfl

/-- C7: whenever the payload's type discriminator is none of photo,
video, link, rich — or the url is absent or empty, the fetch is still
loading, or no payload has arrived — `renderEmbed` returns the loading
placeholder. -/
theorem C7_unknown_or_missing_renders_loading (u : Option String) (l : Bool)
    (d : Option OEmbedPayload)
    (h : (∀ p, d = some p → p.type_ ≠ "photo" ∧ p.type_ ≠ "video"
            ∧ p.type_ ≠ "link" ∧ p.type_ ≠ "rich")
         ∨ u = none ∨ u = some "" ∨ l = true ∨ d = none) :
    renderEmbed u l d = .loading := by
  rcases h with h | h | h | h | h
  · cases d with
    | none => simp [renderEmbed]
    | some p =>
      obtain ⟨h1, h2, h3, h4⟩ := h p rfl
      cases u with
      | none => simp [renderEmbed]
      | some s =>
        simp only [renderEmbed, Option.getD, Option.isNone]
        split
        · rfl
        · simp [h1, h2, h3, h4]
  · simp [renderEmbed, h]
  · simp [renderEmbed, h, String.isEmpty]
  · simp [renderEmbed, h]
  · simp [renderEmbed, h]

/-- C7 witness: a payload with unknown type `"tweet"` renders the
loading placeholder. -/
theorem C7_witness :
    renderEmbed (some "https://example.com/x") false
        (some { type_ := "tweet", url := none, html := none, width := none,
                height := none, title := none })
      = .loading :=
  C7_unknown_or_missing_renders_loading _ _ _
    (Or.inl (fun p hp => by
      cases hp
      exact ⟨by decide, by decide, by decide, by decide⟩))

/-- C8: every container element that does not carry the
`data-lexical-oembed-url` attribute is not recognized: the DOM import
conversion yields no node. -/
theorem C8_no_marker_not_recognized (e : DOMElement) (k : Nat)
    (h : e.hasAttribute "data-lexical-oembed-url" = false) :
    importFromMarkup e k = none := by
  unfold importFromMarkup OEmbedNode.importDOMDiv
  rw [h]
  split <;> rfl

/-- C8 witness: a div with no attributes is not recognized. -/
theorem C8_no_marker_witness :
    importFromMarkup { tag := "div", attributes := [] } 0 = none :=
  C8_no_marker_not_recognized { tag := "div", attributes := [] } 0 (by decide)

/-- C9: for every node, `exportJSON` produces type `"oembed"`, version
`1`, url equal to `getUrl()`, and carries the base-class format field
unchanged. -/
theorem C9_export_shape (n : OEmbedNode) :
    n.exportJSON.type_ = "oembed" ∧ n.exportJSON.version = 1
      ∧ n.exportJSON.url = n.getUrl ∧ n.exportJSON.format = n.format := by
  exact ⟨rfl, rfl, rfl, rfl⟩

/-- C10: on a div whose `data-lexical-oembed-url` attribute holds the
empty string, the presence check accepts the element (a conversion is
offered) but the conversion returns null; hence a node created with
url `""` does not survive the exportDOM/importFromMarkup round-trip. -/
theorem C10_empty_url_marker (k k1 k2 : Nat) :
    (OEmbedNode.importDOMDiv
        { tag := "div", attributes := [("data-lexical-oembed-url", "")] }).isSome
        = true
      ∧ convertOEmbedElement
          { tag := "div", attributes := [("data-lexical-oembed-url", "")] } k
        = none
      ∧ importFromMarkup ((createOEmbedNode "" k1).exportDOM) k2 = none := by
  exact ⟨rfl, rfl, rfl⟩
